import Mathlib

/-!
# Product aggregation and pagination pipeline

A shallow embedding of the data-fetching code of the storefront:
`getServerSideProps` of `src/pages/products/index.js` (the listing) and
`getStaticProps` of `src/pages/products/[id].js` (the detail page).

Conventions of the embedding.

* A JavaScript string is a Lean `String`; the only falsy string is `""`.
* A JavaScript number coming out of a JSON body is a rational number; the
  only falsy one is `0` (a JSON body carries no `NaN`).  Counts (`total`) are
  natural numbers.  `NaN`, which `parseInt` can produce, is `none`.
* `undefined` / `null` / an absent property is `none`.
* `fetch` is a function from the URL to its outcome: `Except.error msg` is a
  rejected promise (a thrown error whose `message` is `msg`), `Except.ok r`
  is a response.  The answer to one URL is fixed while a single operation
  runs.  The three endpoints have the body shapes of the backend interface
  (collection, single entry, asset), so there is one typed function for each.
* `console.log` / `console.warn` / `console.error` have no effect on results
  and are left out.
* `try { ... } catch (error) { ... }` is an `Except String` computation (the
  `try` block) followed by a `match` (the `catch` block).
-/

set_option maxRecDepth 8192

namespace Storeplatform

/-! ## Backend payloads -/

/-- The `sys` block of an entry, a link or an asset: `{ id }`. -/
structure Sys where
  id : String
  deriving DecidableEq, Repr

/-- An asset reference (a link) inside an image field: `{ sys: { id } }`. -/
structure AssetReference where
  sys : Sys
  deriving DecidableEq, Repr

/-- The `file` block of an asset: `{ url }`, the URL possibly absent. -/
structure AssetFile where
  url : Option String
  deriving DecidableEq, Repr

/-- The `fields` block of an asset: `{ file }`, possibly absent. -/
structure AssetFields where
  file : Option AssetFile
  deriving DecidableEq, Repr

/-- An asset record: `{ sys: { id }, fields?: { file?: { url? } } }`. -/
structure Asset where
  sys : Sys
  fields : Option AssetFields
  deriving DecidableEq, Repr

/-- The `image` field of an entry when it is present: either one reference
(`Array.isArray` is false) or an array of references. -/
inductive ImageField where
  | single (ref : AssetReference)
  | many (refs : List AssetReference)
  deriving DecidableEq, Repr

/-- The field map of a raw entry; every field may be absent. -/
structure Fields where
  title : Option String
  description : Option String
  brandName : Option String
  author : Option String
  price : Option ℚ
  category : Option String
  image : Option ImageField
  deriving DecidableEq, Repr

/-- A raw content entry: `{ sys: { id }, fields: { ... } }`. -/
structure RawEntry where
  sys : Sys
  fields : Fields
  deriving DecidableEq, Repr

/-- The `includes` block of a collection response: `{ Asset?: [...] }`. -/
structure Includes where
  Asset : Option (List Asset)
  deriving DecidableEq, Repr

/-- The body of a collection response: `{ items?, includes?, total? }`. -/
structure Collection where
  items : Option (List RawEntry)
  includes : Option Includes
  total : Option Nat
  deriving DecidableEq, Repr

/-- A `fetch` response: the HTTP status and the outcome of `response.json()`
(`Except.error msg` when parsing the body throws). -/
structure Response (α : Type) where
  status : Nat
  json : Except String α

/-- The `ok` flag of a response: the status is in the range 200-299. -/
def Response.ok {α : Type} (r : Response α) : Bool :=
  decide (200 ≤ r.status) && decide (r.status ≤ 299)

/-- The outcome of `await fetch(url)`. -/
abbrev FetchResult (α : Type) := Except String (Response α)

/-- The backend as seen through `fetch`, one function per endpoint:
`/entries?...` (collections), `/entries/<id>` (one entry), `/assets/<id>`. -/
structure Net where
  entries : String → FetchResult Collection
  entry : String → FetchResult RawEntry
  asset : String → FetchResult Asset

/-- The three environment variables read from `process.env`. -/
structure Env where
  CONTENTFUL_SPACES_ID : Option String
  CONTENTFUL_CDA_TOKEN : Option String
  CONTENTFUL_ENV : Option String
  deriving DecidableEq, Repr

/-! ## Canonical records -/

/-- The canonical product built by both paths; `none` is `null`. -/
structure Product where
  id : String
  title : String
  description : String
  brandName : String
  price : Option ℚ
  category : String
  images : List String
  image : Option String
  deriving DecidableEq, Repr

/-- The `props` object returned by `getServerSideProps`.  `page` is a
JavaScript number: `none` is `NaN`. -/
structure ListProps where
  products : List Product
  error : Option String
  page : Option Int
  totalProducts : Nat
  totalPages : Nat
  categories : List String
  deriving DecidableEq, Repr

/-- The value returned by `getStaticProps`: `{ notFound: true }` or
`{ props: { product, error }, revalidate? }`. -/
inductive StaticResult where
  | notFound
  | props (product : Option Product) (error : Option String) (revalidate : Option Nat)
  deriving DecidableEq, Repr

/-- The request query of the listing page: `query.page`, `query.category`. -/
structure Query where
  page : Option String
  category : Option String
  deriving DecidableEq, Repr

/-! ## JavaScript primitives used by the code -/

/-- Truthiness filter for an optional string: `none` unless the value is a
non-empty string. -/
def truthyStr : Option String → Option String
  | some s => if s = "" then none else some s
  | none => none

/-- The expression `x || d` for an optional string `x` and a string `d`. -/
def strOr (x : Option String) (d : String) : String :=
  match truthyStr x with
  | some s => s
  | none => d

/-- The expression `x || null` for an optional number `x`. -/
def numOrNull : Option ℚ → Option ℚ
  | some n => if n = 0 then none else some n
  | none => none

/-- Interpolation of a possibly undefined value into a template literal. -/
def tmpl : Option String → String
  | some s => s
  | none => "undefined"

/-- Interpolation of a number (`none` is `NaN`) into a template literal. -/
def tmplNum : Option Int → String
  | some n => toString n
  | none => "NaN"

/-- The white space that `parseInt` skips at the start of its input. -/
def isJsWhiteSpace (c : Char) : Bool :=
  let n := c.toNat
  n = 0x09 || n = 0x0A || n = 0x0B || n = 0x0C || n = 0x0D || n = 0x20 || n = 0xA0 ||
  n = 0x1680 || (0x2000 ≤ n && n ≤ 0x200A) || n = 0x2028 || n = 0x2029 || n = 0x202F ||
  n = 0x205F || n = 0x3000 || n = 0xFEFF

/-- The value of a run of decimal digits, most significant first. -/
def digitsValue (ds : List Char) : Nat :=
  ds.foldl (fun acc c => 10 * acc + (c.toNat - 48)) 0

/-- The function `parseInt(s, 10)`: skip leading white space, read an optional
sign, then the longest run of decimal digits; `none` (`NaN`) when there is no
digit. -/
def parseInt10 (s : String) : Option Int :=
  let cs := s.toList.dropWhile isJsWhiteSpace
  let (neg, rest) :=
    match cs with
    | '-' :: r => (true, r)
    | '+' :: r => (false, r)
    | r => (false, r)
  let ds := rest.takeWhile Char.isDigit
  if ds.isEmpty then none
  else if neg then some (-(digitsValue ds : Int)) else some (digitsValue ds : Int)

/-- Characters that `encodeURIComponent` leaves as they are. -/
def isUriUnreserved (c : Char) : Bool :=
  c.isAlphanum || c = '-' || c = '_' || c = '.' || c = '!' || c = '~' || c = '*' ||
  c = Char.ofNat 39 || c = '(' || c = ')'

/-- One upper-case hexadecimal digit. -/
def hexDigit (n : Nat) : Char :=
  if n < 10 then Char.ofNat (48 + n) else Char.ofNat (55 + n)

/-- The escape `%XX` of one byte. -/
def pctEncode (b : UInt8) : List Char :=
  ['%', hexDigit (b.toNat / 16), hexDigit (b.toNat % 16)]

/-- The function `encodeURIComponent`: every character other than the
unreserved ones is replaced by the escapes of its UTF-8 bytes. -/
def encodeURIComponent (s : String) : String :=
  String.mk (s.toList.flatMap fun c =>
    if isUriUnreserved c then [c] else (String.utf8EncodeChar c).flatMap pctEncode)

/-- The UTF-16 code units of a character. -/
def utf16Units (c : Char) : List Nat :=
  if c.toNat < 0x10000 then [c.toNat]
  else [0xD800 + (c.toNat - 0x10000) / 0x400, 0xDC00 + (c.toNat - 0x10000) % 0x400]

/-- The UTF-16 code units of a string, the form in which JavaScript compares
strings. -/
def codeUnits (s : String) : List Nat :=
  s.toList.flatMap utf16Units

/-- The default order of `Array.prototype.sort` on strings: lexicographic on
UTF-16 code units. -/
def jsStrLe (a b : String) : Prop :=
  codeUnits a ≤ codeUnits b

instance : DecidableRel jsStrLe := fun a b => by
  unfold jsStrLe; infer_instance

instance : IsTotal String jsStrLe := ⟨fun a b => le_total (codeUnits a) (codeUnits b)⟩

instance : IsTrans String jsStrLe := ⟨fun _ _ _ h₁ h₂ => le_trans h₁ h₂⟩

/-- The expression `Math.ceil(n / d)` for a natural number `n` and a positive
natural number `d`, the division being the exact one: the quotient, plus one
when the division leaves a remainder. -/
def mathCeilDiv (n d : Nat) : Nat :=
  n / d + (if n % d = 0 then 0 else 1)

/-! ## The listing path: `getServerSideProps` of `pages/products/index.js` -/

/-- The constant `contentType`. -/
def contentType : String := "products"

/-- The constant `limit`, the page size. -/
def limit : Nat := 10

/-- The constant `envId`: `process.env.CONTENTFUL_ENV || 'master'`. -/
def envId (env : Env) : String := strOr env.CONTENTFUL_ENV "master"

/-- The constant `page`: `parseInt(query.page || '1', 10)`. -/
def pageOf (query : Query) : Option Int := parseInt10 (strOr query.page "1")

/-- The constant `skip`: `(page - 1) * limit`. -/
def skipOf (query : Query) : Option Int := (pageOf query).map fun p => (p - 1) * (limit : Int)

/-- The constant `categoryFilter`: `query.category || null`. -/
def categoryFilter (query : Query) : Option String := truthyStr query.category

/-- The URL of the page query before the optional category filter. -/
def baseUrl (env : Env) (query : Query) : String :=
  "https://cdn.contentful.com/spaces/" ++ tmpl env.CONTENTFUL_SPACES_ID ++ "/environments/" ++
    envId env ++ "/entries?access_token=" ++ tmpl env.CONTENTFUL_CDA_TOKEN ++ "&content_type=" ++
    contentType ++ "&limit=" ++ toString limit ++ "&skip=" ++ tmplNum (skipOf query)

/-- The variable `url`: the filter `&fields.category=...` is appended when
`categoryFilter && categoryFilter !== 'all'`. -/
def url (env : Env) (query : Query) : String :=
  match categoryFilter query with
  | some c => if c ≠ "all" then baseUrl env query ++ "&fields.category=" ++ encodeURIComponent c
              else baseUrl env query
  | none => baseUrl env query

/-- The constant `allProductsUrl` of the category-discovery query. -/
def allProductsUrl (env : Env) : String :=
  "https://cdn.contentful.com/spaces/" ++ tmpl env.CONTENTFUL_SPACES_ID ++ "/environments/" ++
    envId env ++ "/entries?access_token=" ++ tmpl env.CONTENTFUL_CDA_TOKEN ++ "&content_type=" ++
    contentType ++ "&limit=1000"

/-- The method `categorySet.add(c)` on a `Set` kept in insertion order. -/
def setAdd (s : List String) (c : String) : List String :=
  if c ∈ s then s else s ++ [c]

/-- The loop `allProductsData.items.forEach(...)` starting from `new Set()`:
every truthy `item.fields.category` is added. -/
def categorySet (items : List RawEntry) : List String :=
  items.foldl (fun s item =>
    match truthyStr item.fields.category with
    | some c => setAdd s c
    | none => s) []

/-- The expression `Array.from(categorySet).sort()`. -/
def sortedCategories (items : List RawEntry) : List String :=
  (categorySet items).insertionSort jsStrLe

/-- The message of the `TypeError` raised by `allProductsData.items.forEach`
when `items` is absent. -/
def forEachOfUndefined : String := "Cannot read properties of undefined (reading 'forEach')"

/-- Lines 94-108: the category-discovery query.  A thrown `fetch`, a thrown
`json()` and an absent `items` raise; a non-success response leaves
`categories = []`. -/
def discoverCategories (env : Env) (net : Net) : Except String (List String) :=
  match net.entries (allProductsUrl env) with
  | .error e => .error e
  | .ok allProductsResponse =>
    if allProductsResponse.ok then
      match allProductsResponse.json with
      | .error e => .error e
      | .ok allProductsData =>
        match allProductsData.items with
        | none => .error forEachOfUndefined
        | some items => .ok (sortedCategories items)
    else .ok []

/-- The expression `imageAsset?.fields?.file?.url` for the result of `find`. -/
def assetUrl? (imageAsset : Option Asset) : Option String :=
  match imageAsset with
  | none => none
  | some a =>
    match a.fields with
    | none => none
    | some f =>
      match f.file with
      | none => none
      | some file => file.url

/-- The callback of the inner `map`: the URL of the first asset with the id of
the reference, `|| null`. -/
def lookupUrl (assets : List Asset) (img : AssetReference) : Option String :=
  truthyStr (assetUrl? (assets.find? fun asset => asset.sys.id = img.sys.id))

/-- Lines 128-145: the listing-path asset resolver.  For an array the
references are mapped to a URL or `null` and the `null`s are filtered out; for
a single reference with a truthy id the URL is pushed when it is truthy. -/
def resolveImages (assets : List Asset) (image : Option ImageField) : List String :=
  match image with
  | none => []
  | some (.many refs) => (refs.map (lookupUrl assets)).filterMap id
  | some (.single ref) =>
    if ref.sys.id ≠ "" then
      match lookupUrl assets ref with
      | some u => [u]
      | none => []
    else []

/-- The expression `images[0] || null`. -/
def primaryImage (images : List String) : Option String :=
  truthyStr images.head?

/-- Lines 147-156 (and 111-120 of the detail page): the product literal. -/
def mkProduct (item : RawEntry) (images : List String) : Product :=
  { id := item.sys.id
    title := strOr item.fields.title "Untitled Product"
    description := strOr item.fields.description ""
    brandName := strOr item.fields.brandName (strOr item.fields.author "")
    price := numOrNull item.fields.price
    category := strOr item.fields.category ""
    images := images
    image := primaryImage images }

/-- The callback of `(data.items || []).map(...)`, lines 127-157. -/
def mapItem (assets : List Asset) (item : RawEntry) : Product :=
  mkProduct item (resolveImages assets item.fields.image)

/-- The constant `assets`: `data.includes?.Asset || []`. -/
def assetsOf (data : Collection) : List Asset :=
  match data.includes with
  | none => []
  | some inc => inc.Asset.getD []

/-- The body of the `try` block of `getServerSideProps`, lines 82-171. -/
def listTry (env : Env) (net : Net) (query : Query) : Except String ListProps :=
  match net.entries (url env query) with
  | .error e => .error e
  | .ok response =>
    if !response.ok then .error "Failed to fetch Contentful products"
    else
      match response.json with
      | .error e => .error e
      | .ok data =>
        match discoverCategories env net with
        | .error e => .error e
        | .ok categories =>
          match data.items with
          | none | some [] =>
            .ok { products := [], error := none, page := pageOf query, totalProducts := 0,
                  totalPages := 1, categories := categories }
          | some (item :: rest) =>
            let products := (item :: rest).map (mapItem (assetsOf data))
            let totalProducts := data.total.getD 0
            let totalPages := mathCeilDiv totalProducts limit
            .ok { products := products, error := none, page := pageOf query,
                  totalProducts := totalProducts, totalPages := totalPages,
                  categories := categories }

/-- The function `getServerSideProps`: the `try` block, and the `catch` block
of lines 172-184 turning any thrown error into the empty listing. -/
def getServerSideProps (env : Env) (net : Net) (query : Query) : ListProps :=
  match listTry env net query with
  | .ok props => props
  | .error message =>
    { products := [], error := some ("Failed to fetch products: " ++ message), page := some 1,
      totalProducts := 0, totalPages := 1, categories := [] }

/-! ## The detail path: `getStaticProps` of `pages/products/[id].js` -/

/-- The constant `url` of `getStaticProps`: the entry with the given id. -/
def entryUrl (env : Env) (id : String) : String :=
  "https://cdn.contentful.com/spaces/" ++ tmpl env.CONTENTFUL_SPACES_ID ++ "/environments/" ++
    envId env ++ "/entries/" ++ id ++ "?access_token=" ++ tmpl env.CONTENTFUL_CDA_TOKEN

/-- The constant `assetUrl`: the asset with the given id. -/
def assetUrl (env : Env) (id : String) : String :=
  "https://cdn.contentful.com/spaces/" ++ tmpl env.CONTENTFUL_SPACES_ID ++ "/environments/" ++
    envId env ++ "/assets/" ++ id ++ "?access_token=" ++ tmpl env.CONTENTFUL_CDA_TOKEN

/-- Lines 91-97 (and 101-107): the secondary fetch of one asset.  The result is
the URL to push, if any; a thrown `fetch` or `json()` raises, a non-success
response pushes nothing. -/
def fetchAssetUrl (env : Env) (net : Net) (id : String) : Except String (Option String) :=
  match net.asset (assetUrl env id) with
  | .error e => .error e
  | .ok assetResponse =>
    if assetResponse.ok then
      match assetResponse.json with
      | .error e => .error e
      | .ok assetData => .ok (truthyStr (assetUrl? (some assetData)))
    else .ok none

/-- Lines 89-99: the loop `for (const img of item.fields.image)` over the
references still to visit, `images` being the array built so far. -/
def fetchImages (env : Env) (net : Net) :
    List AssetReference → List String → Except String (List String)
  | [], images => .ok images
  | img :: rest, images =>
    if img.sys.id ≠ "" then
      match fetchAssetUrl env net img.sys.id with
      | .error e => .error e
      | .ok (some imageUrl) => fetchImages env net rest (images ++ [imageUrl])
      | .ok none => fetchImages env net rest images
    else fetchImages env net rest images

/-- Lines 86-109: the detail-path asset resolver, starting from `images = []`. -/
def resolveImagesByFetch (env : Env) (net : Net) (image : Option ImageField) :
    Except String (List String) :=
  match image with
  | none => .ok []
  | some (.many refs) => fetchImages env net refs []
  | some (.single ref) =>
    if ref.sys.id ≠ "" then
      match fetchAssetUrl env net ref.sys.id with
      | .error e => .error e
      | .ok (some imageUrl) => .ok [imageUrl]
      | .ok none => .ok []
    else .ok []

/-- The body of the `try` block of `getStaticProps`, lines 70-128. -/
def detailTry (env : Env) (net : Net) (id : String) : Except String StaticResult :=
  match net.entry (entryUrl env id) with
  | .error e => .error e
  | .ok response =>
    if !response.ok then
      if response.status = 404 then .ok .notFound
      else .error "Failed to fetch product details"
    else
      match response.json with
      | .error e => .error e
      | .ok item =>
        match resolveImagesByFetch env net item.fields.image with
        | .error e => .error e
        | .ok images => .ok (.props (some (mkProduct item images)) none (some 60))

/-- The function `getStaticProps`: the `try` block, and the `catch` block of
lines 129-137 turning any thrown error into the Error outcome. -/
def getStaticProps (env : Env) (net : Net) (id : String) : StaticResult :=
  match detailTry env net id with
  | .ok result => result
  | .error message => .props none (some ("Failed to fetch product: " ++ message)) none

/-! ## The client side: the product cache and the category filter -/

/-- The effect of the listing page (`pages/products/index.js`, lines 12-14) on
the `products` state of `ProductProvider`: `if (products) setProducts(products)`.
The prop `products` is `none` when it is absent; an array, even empty, is
truthy. -/
def viewListing (products : Option (List Product)) (cache : List Product) : List Product :=
  match products with
  | some ps => ps
  | none => cache

/-- The effect of the detail page (`pages/products/[id].js`, lines 10-14) on
the `products` state: when `product` is present and `products.find` finds no
product with its id, `setProducts(prev => [...prev, product])`.  The state read
by `find` is the state the updater receives. -/
def viewDetail (product : Option Product) (cache : List Product) : List Product :=
  match product with
  | some p =>
    match cache.find? (fun q => q.id = p.id) with
    | none => cache ++ [p]
    | some _ => cache
  | none => cache

/-- The `query` object built by the handlers of the listing page:
`{ page, category? }`, `page` a number. -/
structure PushQuery where
  page : Int
  category : Option String
  deriving DecidableEq, Repr

/-- The argument of `router.push`: `{ pathname, query }`. -/
structure Location where
  pathname : String
  query : PushQuery
  deriving DecidableEq, Repr

/-- The handler `handleCategoryChange` of the listing page, lines 28-34:
the location it pushes. -/
def handleCategoryChange (category : String) : Location :=
  { pathname := "/products"
    query := { page := 1, category := if category ≠ "all" then some category else none } }

/-- The query that `next/router` and the server read back from a pushed
location: the parameters as strings, an absent parameter staying absent. -/
def routerQuery (loc : Location) : Query :=
  { page := some (toString loc.query.page), category := loc.query.category }

/-- The decoding `router.query.category || 'all'` of lines 10 and 17. -/
def selectedCategoryOf (query : Query) : String := strOr query.category "all"

/-- One `<option>` of the category filter. -/
structure SelectOption where
  value : String
  label : String
  deriving DecidableEq, Repr

/-- The label `cat.charAt(0).toUpperCase() + cat.slice(1)` of
`ProductFilter.js`, the method `toUpperCase` of the platform being a
parameter.  `charAt(0)` is one UTF-16 code unit: for a first character outside
the basic plane it is a lone surrogate, which has no upper case, and the two
halves join again. -/
def capitalize (toUpperCase : String → String) (cat : String) : String :=
  match cat.toList with
  | [] => toUpperCase "" ++ ""
  | c :: rest =>
    if c.toNat < 0x10000 then toUpperCase (String.singleton c) ++ String.mk rest else cat

/-- The component `ProductFilter`: `none` when it renders nothing (categories
absent or empty), otherwise the options of its `<select>`: the sentinel `all`,
then one option per category whose value is the category itself. -/
def ProductFilter (toUpperCase : String → String) (categories : Option (List String)) :
    Option (List SelectOption) :=
  match categories with
  | none => none
  | some [] => none
  | some (cat :: cats) =>
    some (⟨"all", "All Categories"⟩ ::
      (cat :: cats).map fun c => ⟨c, capitalize toUpperCase c⟩)

/-! ## Specification-side notions -/

/-- The image/images invariant of a product: `image` is the first element of
`images`, and is absent when `images` is empty. -/
def ImageInvariant (p : Product) : Prop :=
  p.image = p.images.head?

/-- Follows the words of the specification of the resolver: for each reference
in turn, look up the first asset with the same identifier; if it is found and
carries a URL, append the URL; otherwise drop the reference. -/
def resolveSpec (assets : List Asset) : List AssetReference → List String
  | [] => []
  | ref :: rest =>
    match assets.find? (fun a => a.sys.id = ref.sys.id) with
    | some ⟨_, some ⟨some ⟨some u⟩⟩⟩ => if u = "" then resolveSpec assets rest
                                       else u :: resolveSpec assets rest
    | _ => resolveSpec assets rest

/-- The URL obtained for one reference of the detail page, when its secondary
fetch neither is skipped nor fails: the reference has an id, the response is a
success, its body parses and carries a URL. -/
def fetchedUrl (env : Env) (net : Net) (ref : AssetReference) : Option String :=
  if ref.sys.id ≠ "" then
    match net.asset (assetUrl env ref.sys.id) with
    | .ok r =>
      if r.ok then
        match r.json with
        | .ok a => truthyStr (assetUrl? (some a))
        | .error _ => none
      else none
    | .error _ => none
  else none

/-- The secondary fetch of a reference raises: the reference has an id and
either `fetch` rejects or the response is a success whose body fails to
parse. -/
def assetFetchThrows (env : Env) (net : Net) (ref : AssetReference) : Bool :=
  decide (ref.sys.id ≠ "") &&
    match net.asset (assetUrl env ref.sys.id) with
    | .error _ => true
    | .ok r =>
      r.ok && match r.json with
        | .error _ => true
        | .ok _ => false

/-- The message of the error that the secondary fetch of a reference raises,
if it raises: the message of the rejected `fetch`, or the message of the
`json()` of a success response whose body fails to parse. -/
def assetFetchError (env : Env) (net : Net) (ref : AssetReference) : Option String :=
  if ref.sys.id ≠ "" then
    match net.asset (assetUrl env ref.sys.id) with
    | .error e => some e
    | .ok r =>
      if r.ok then
        match r.json with
        | .error e => some e
        | .ok _ => none
      else none
  else none

/-- The message of the first secondary fetch that raises, the references
being visited in order. -/
def firstAssetError (env : Env) (net : Net) (refs : List AssetReference) : Option String :=
  refs.findSome? (assetFetchError env net)

/-- The references of an image field, in order. -/
def imageRefs : Option ImageField → List AssetReference
  | none => []
  | some (.single ref) => [ref]
  | some (.many refs) => refs

/-! ## Concrete scenarios -/

/-- An environment with a space and a token and the default environment id. -/
def demoEnv : Env := ⟨some "space", some "token", none⟩

/-- A raw entry of category `shoes` with the given id, price and image field. -/
def shoeEntry (id : String) (price : Option ℚ) (image : Option ImageField) : RawEntry :=
  ⟨⟨id⟩, ⟨some "Runner", none, none, some "Acme", price, some "shoes", image⟩⟩

/-- Two assets: `a1` carries a URL, `a2` has no file. -/
def demoAssets : List Asset :=
  [⟨⟨"a1"⟩, some ⟨some ⟨some "//images.ctfassets.net/a1.png"⟩⟩⟩, ⟨⟨"a2"⟩, none⟩]

/-- A page response body: three entries of category `shoes`, total 3. -/
def demoPage : Collection :=
  { items := some [shoeEntry "p1" (some 25) (some (.many [⟨⟨"a1"⟩⟩, ⟨⟨"zz"⟩⟩])),
                   shoeEntry "p2" (some 0) (some (.single ⟨⟨"a2"⟩⟩)),
                   shoeEntry "p3" none none]
    includes := some ⟨some demoAssets⟩
    total := some 3 }

/-- The query `?page=1&category=shoes`. -/
def demoQuery : Query := ⟨some "1", some "shoes"⟩

/-- A backend whose category-discovery query answers with status 500. -/
def netCategoryDown : Net :=
  { entries := fun u =>
      if u = allProductsUrl demoEnv then .ok ⟨500, .error "Unexpected token"⟩
      else .ok ⟨200, .ok demoPage⟩
    entry := fun _ => .error "unused"
    asset := fun _ => .error "unused" }

/-- A backend whose category-discovery query is rejected (network failure). -/
def netCategoryThrows : Net :=
  { entries := fun u =>
      if u = allProductsUrl demoEnv then .error "network down"
      else .ok ⟨200, .ok demoPage⟩
    entry := fun _ => .error "unused"
    asset := fun _ => .error "unused" }

/-- The asset `a1` with its URL. -/
def assetA1 : Asset := ⟨⟨"a1"⟩, some ⟨some ⟨some "//images.ctfassets.net/a1.png"⟩⟩⟩

/-- A detail entry that references the two image ids `a1` and `a2`. -/
def detailEntry : RawEntry :=
  shoeEntry "p1" (some 25) (some (.many [⟨⟨"a1"⟩⟩, ⟨⟨"a2"⟩⟩]))

/-- A backend for the detail page: the entry `p1` exists, every other entry
is a 404; the asset `a1` resolves, every other asset is a 404. -/
def netDetail404 : Net :=
  { entries := fun _ => .error "unused"
    entry := fun u =>
      if u = entryUrl demoEnv "p1" then .ok ⟨200, .ok detailEntry⟩
      else .ok ⟨404, .error "Unexpected end of JSON input"⟩
    asset := fun u =>
      if u = assetUrl demoEnv "a1" then .ok ⟨200, .ok assetA1⟩
      else .ok ⟨404, .error "Unexpected end of JSON input"⟩ }

/-- A backend for the detail page: the entry `p1` exists, every other entry
answers 500; the asset `a1` resolves, the fetch of any other asset is
rejected (network failure). -/
def netDetailThrows : Net :=
  { entries := fun _ => .error "unused"
    entry := fun u =>
      if u = entryUrl demoEnv "p1" then .ok ⟨200, .ok detailEntry⟩
      else .ok ⟨500, .error "Unexpected end of JSON input"⟩
    asset := fun u =>
      if u = assetUrl demoEnv "a1" then .ok ⟨200, .ok assetA1⟩
      else .error "network down" }

/-- A backend with no entry at all: every collection query succeeds with an
empty `items` and total 0. -/
def netEmptyBackend : Net :=
  { entries := fun _ => .ok ⟨200, .ok ⟨some [], none, some 0⟩⟩
    entry := fun _ => .error "unused"
    asset := fun _ => .error "unused" }

/-- A backend whose collection queries are all rejected. -/
def netOffline : Net :=
  { entries := fun _ => .error "network down"
    entry := fun _ => .error "network down"
    asset := fun _ => .error "network down" }

/-- An entry with only an id and a category. -/
def plainEntry (id : String) (category : Option String) : RawEntry :=
  ⟨⟨id⟩, ⟨none, none, none, none, none, category, none⟩⟩

/-- The 25 entries of the shop: 22 entries that are hats, bags or without a
category, and the three shoes of `demoPage`. -/
def shopEntries : List RawEntry :=
  (List.range 22).map (fun i =>
    plainEntry ("q" ++ toString i)
      (if i % 3 = 0 then some "hats" else if i % 3 = 1 then some "bags" else some "")) ++
  demoPage.items.getD []

/-- A backend holding the 25 entries of `shopEntries`: the unfiltered query
returns them all, the query of `demoQuery` (category `shoes`) returns the three
shoes with total 3, any other page is empty. -/
def netShop : Net :=
  { entries := fun u =>
      if u = allProductsUrl demoEnv then .ok ⟨200, .ok ⟨some shopEntries, none, some 25⟩⟩
      else if u = url demoEnv demoQuery then .ok ⟨200, .ok demoPage⟩
      else .ok ⟨200, .ok ⟨some [], none, some 0⟩⟩
    entry := fun _ => .error "unused"
    asset := fun _ => .error "unused" }

/-- A backend whose collection queries all answer with status 500. -/
def netPageDown : Net :=
  { entries := fun _ => .ok ⟨500, .error "Unexpected token"⟩
    entry := fun _ => .error "unused"
    asset := fun _ => .error "unused" }

/-- The product of the listing built from the shoe `p1`. -/
def productP1 : Product := mapItem demoAssets (shoeEntry "p1" (some 25) none)

/-- The product of the listing built from the shoe `p2`. -/
def productP2 : Product := mapItem demoAssets (shoeEntry "p2" (some 30) none)

/-- A stand-in for `toUpperCase` on the ASCII letters. -/
def asciiUpper (s : String) : String := String.mk (s.toList.map Char.toUpper)

/-- A backend whose page queries succeed with an empty `items` and whose
category-discovery query is rejected (network failure). -/
def netEmptyCategoryThrows : Net :=
  { entries := fun u =>
      if u = allProductsUrl demoEnv then .error "network down"
      else .ok ⟨200, .ok ⟨some [], none, some 0⟩⟩
    entry := fun _ => .error "unused"
    asset := fun _ => .error "unused" }

/-! ## Auxiliary lemmas -/

theorem truthyStr_ne_empty {x : Option String} {s : String} (h : truthyStr x = some s) :
    s ≠ "" := by
  cases x with
  | none => simp [truthyStr] at h
  | some t =>
    by_cases ht : t = ""
    · simp [truthyStr, ht] at h
    · simp [truthyStr, ht] at h; exact h ▸ ht

theorem truthyStr_of_ne_empty {s : String} (h : s ≠ "") : truthyStr (some s) = some s := by
  simp [truthyStr, h]

theorem primaryImage_eq_head {images : List String} (h : ∀ u ∈ images, u ≠ "") :
    primaryImage images = images.head? := by
  cases images with
  | nil => rfl
  | cons u rest =>
    have hu : u ≠ "" := h u (List.mem_cons_self _ _)
    simp [primaryImage, truthyStr, hu]

theorem resolveImages_truthy (assets : List Asset) (image : Option ImageField) :
    ∀ u ∈ resolveImages assets image, u ≠ "" := by
  intro u hu
  match image, hu with
  | none, hu => simp [resolveImages] at hu
  | some (.many refs), hu =>
    simp only [resolveImages, List.filterMap_map, List.mem_filterMap, Function.comp, id] at hu
    obtain ⟨r, _, hr⟩ := hu
    exact truthyStr_ne_empty hr
  | some (.single ref), hu =>
    unfold resolveImages at hu
    by_cases hid : ref.sys.id = ""
    · simp [hid] at hu
    · cases hl : lookupUrl assets ref with
      | none => simp [hid, hl] at hu
      | some v =>
        simp [hid, hl] at hu
        exact hu ▸ truthyStr_ne_empty hl

theorem listTry_category_error {env : Env} {net : Net} {query : Query}
    {response : Response Collection} {data : Collection} {e : String}
    (h1 : net.entries (url env query) = .ok response) (h2 : response.ok = true)
    (h3 : response.json = .ok data) (h4 : discoverCategories env net = .error e) :
    listTry env net query = .error e := by
  simp [listTry, h1, h2, h3, h4]

theorem listTry_entries {env : Env} {net : Net} {query : Query}
    {response : Response Collection} {data : Collection} {item : RawEntry}
    {rest : List RawEntry} {categories : List String}
    (h1 : net.entries (url env query) = .ok response) (h2 : response.ok = true)
    (h3 : response.json = .ok data) (h4 : data.items = some (item :: rest))
    (h5 : discoverCategories env net = .ok categories) :
    listTry env net query =
      .ok { products := (item :: rest).map (mapItem (assetsOf data)), error := none,
            page := pageOf query, totalProducts := data.total.getD 0,
            totalPages := mathCeilDiv (data.total.getD 0) limit, categories := categories } := by
  simp [listTry, h1, h2, h3, h4, h5]

theorem listTry_empty {env : Env} {net : Net} {query : Query}
    {response : Response Collection} {data : Collection} {categories : List String}
    (h1 : net.entries (url env query) = .ok response) (h2 : response.ok = true)
    (h3 : response.json = .ok data) (h4 : data.items = none ∨ data.items = some [])
    (h5 : discoverCategories env net = .ok categories) :
    listTry env net query =
      .ok { products := [], error := none, page := pageOf query, totalProducts := 0,
            totalPages := 1, categories := categories } := by
  rcases h4 with h4 | h4 <;> simp [listTry, h1, h2, h3, h4, h5]

theorem fetchAssetUrl_truthy {env : Env} {net : Net} {id u : String}
    (h : fetchAssetUrl env net id = .ok (some u)) : u ≠ "" := by
  unfold fetchAssetUrl at h
  cases hn : net.asset (assetUrl env id) with
  | error e => simp [hn] at h
  | ok r =>
    simp only [hn] at h
    by_cases hok : r.ok = true
    · cases hj : r.json with
      | error e => simp [hok, hj] at h
      | ok a =>
        simp only [hok, hj, if_true, Except.ok.injEq] at h
        exact truthyStr_ne_empty h
    · simp [hok] at h

theorem fetchImages_truthy (env : Env) (net : Net) (refs : List AssetReference) :
    ∀ (acc images : List String), fetchImages env net refs acc = .ok images →
      (∀ u ∈ acc, u ≠ "") → ∀ u ∈ images, u ≠ "" := by
  induction refs with
  | nil =>
    intro acc images h hacc
    simp only [fetchImages, Except.ok.injEq] at h
    exact h ▸ hacc
  | cons img rest ih =>
    intro acc images h hacc
    unfold fetchImages at h
    by_cases hid : img.sys.id = ""
    · simp only [hid, ne_eq, not_true_eq_false, if_false] at h
      exact ih acc images h hacc
    · simp only [ne_eq, hid, not_false_eq_true, if_true] at h
      cases hf : fetchAssetUrl env net img.sys.id with
      | error e => simp [hf] at h
      | ok o =>
        cases o with
        | none =>
          simp only [hf] at h
          exact ih acc images h hacc
        | some v =>
          simp only [hf] at h
          refine ih (acc ++ [v]) images h ?_
          intro u hu
          rcases List.mem_append.1 hu with hu | hu
          · exact hacc u hu
          · simp only [List.mem_singleton] at hu
            exact hu ▸ fetchAssetUrl_truthy hf

theorem resolveImagesByFetch_truthy {env : Env} {net : Net} {image : Option ImageField}
    {images : List String} (h : resolveImagesByFetch env net image = .ok images) :
    ∀ u ∈ images, u ≠ "" := by
  match image, h with
  | none, h =>
    simp only [resolveImagesByFetch, Except.ok.injEq] at h
    subst h; simp
  | some (.many refs), h =>
    exact fetchImages_truthy env net refs [] images h (by simp)
  | some (.single ref), h =>
    unfold resolveImagesByFetch at h
    by_cases hid : ref.sys.id = ""
    · simp only [hid, ne_eq, not_true_eq_false, if_false, Except.ok.injEq] at h
      subst h; simp
    · simp only [ne_eq, hid, not_false_eq_true, if_true] at h
      cases hf : fetchAssetUrl env net ref.sys.id with
      | error e => simp [hf] at h
      | ok o =>
        cases o with
        | none =>
          simp only [hf, Except.ok.injEq] at h
          subst h; simp
        | some v =>
          simp only [hf, Except.ok.injEq] at h
          subst h
          intro u hu
          simp only [List.mem_singleton] at hu
          exact hu ▸ fetchAssetUrl_truthy hf

theorem fetchAssetUrl_of_not_throws {env : Env} {net : Net} {ref : AssetReference}
    (hid : ref.sys.id ≠ "") (h : assetFetchThrows env net ref = false) :
    fetchAssetUrl env net ref.sys.id = .ok (fetchedUrl env net ref) := by
  unfold assetFetchThrows at h
  unfold fetchAssetUrl fetchedUrl
  cases hn : net.asset (assetUrl env ref.sys.id) with
  | error e => simp [hn, hid] at h
  | ok r =>
    by_cases hok : r.ok = true
    · cases hj : r.json with
      | error e => simp [hn, hid, hok, hj] at h
      | ok a => simp [hid, hok, hj]
    · simp [hid, hok]

theorem fetchedUrl_of_empty_id {env : Env} {net : Net} {ref : AssetReference}
    (hid : ref.sys.id = "") : fetchedUrl env net ref = none := by
  simp [fetchedUrl, hid]

theorem fetchImages_of_not_throws (env : Env) (net : Net) (refs : List AssetReference) :
    ∀ acc : List String, (∀ ref ∈ refs, assetFetchThrows env net ref = false) →
      fetchImages env net refs acc = .ok (acc ++ refs.filterMap (fetchedUrl env net)) := by
  induction refs with
  | nil => intro acc _; simp [fetchImages]
  | cons img rest ih =>
    intro acc h
    have hrest : ∀ ref ∈ rest, assetFetchThrows env net ref = false :=
      fun ref hr => h ref (List.mem_cons_of_mem _ hr)
    unfold fetchImages
    by_cases hid : img.sys.id = ""
    · simp only [hid, ne_eq, not_true_eq_false, if_false]
      rw [ih acc hrest, List.filterMap_cons, fetchedUrl_of_empty_id hid]
    · simp only [ne_eq, hid, not_false_eq_true, if_true]
      rw [fetchAssetUrl_of_not_throws hid (h img (List.mem_cons_self _ _))]
      cases hf : fetchedUrl env net img with
      | none => simp only [List.filterMap_cons, hf]; exact ih acc hrest
      | some v =>
        simp only [List.filterMap_cons, hf]
        rw [ih (acc ++ [v]) hrest]
        simp

theorem resolveImagesByFetch_of_not_throws {env : Env} {net : Net} {image : Option ImageField}
    (h : ∀ ref ∈ imageRefs image, assetFetchThrows env net ref = false) :
    resolveImagesByFetch env net image = .ok ((imageRefs image).filterMap (fetchedUrl env net)) := by
  match image, h with
  | none, _ => simp [resolveImagesByFetch, imageRefs]
  | some (.many refs), h =>
    simp only [resolveImagesByFetch, imageRefs]
    rw [fetchImages_of_not_throws env net refs [] h]
    simp
  | some (.single ref), h =>
    unfold resolveImagesByFetch
    by_cases hid : ref.sys.id = ""
    · simp [hid, imageRefs, fetchedUrl_of_empty_id hid]
    · simp only [ne_eq, hid, not_false_eq_true, if_true, imageRefs]
      rw [fetchAssetUrl_of_not_throws hid (h ref (by simp [imageRefs]))]
      cases hf : fetchedUrl env net ref <;> simp [hf]

theorem resolveImages_many_eq_spec (assets : List Asset) (refs : List AssetReference) :
    resolveImages assets (some (.many refs)) = resolveSpec assets refs := by
  induction refs with
  | nil => simp [resolveImages, resolveSpec]
  | cons ref rest ih =>
    simp only [resolveImages, List.map_cons, List.filterMap_cons] at ih ⊢
    rcases hf : assets.find? (fun a => a.sys.id = ref.sys.id) with _ | ⟨s, _ | ⟨_ | ⟨_ | u⟩⟩⟩
    · simp [lookupUrl, assetUrl?, truthyStr, resolveSpec, hf, ih]
    · simp [lookupUrl, assetUrl?, truthyStr, resolveSpec, hf, ih]
    · simp [lookupUrl, assetUrl?, truthyStr, resolveSpec, hf, ih]
    · simp [lookupUrl, assetUrl?, truthyStr, resolveSpec, hf, ih]
    · by_cases hu : u = "" <;> simp [lookupUrl, assetUrl?, truthyStr, resolveSpec, hf, ih, hu]

theorem fetchAssetUrl_of_throws {env : Env} {net : Net} {ref : AssetReference}
    (h : assetFetchThrows env net ref = true) :
    ref.sys.id ≠ "" ∧ ∃ e, fetchAssetUrl env net ref.sys.id = .error e := by
  unfold assetFetchThrows at h
  unfold fetchAssetUrl
  have hid : ref.sys.id ≠ "" := by
    intro hid; simp [hid] at h
  refine ⟨hid, ?_⟩
  cases hn : net.asset (assetUrl env ref.sys.id) with
  | error e => exact ⟨e, rfl⟩
  | ok r =>
    by_cases hok : r.ok = true
    · cases hj : r.json with
      | error e => exact ⟨e, by simp [hok, hj]⟩
      | ok a => simp [hn, hid, hok, hj] at h
    · simp [hn, hid, hok] at h

theorem fetchImages_of_throws (env : Env) (net : Net) (refs : List AssetReference) :
    ∀ acc : List String, (∃ ref ∈ refs, assetFetchThrows env net ref = true) →
      ∃ e, fetchImages env net refs acc = .error e := by
  induction refs with
  | nil => intro acc h; obtain ⟨_, hr, _⟩ := h; simp at hr
  | cons img rest ih =>
    intro acc h
    unfold fetchImages
    by_cases himg : assetFetchThrows env net img = true
    · obtain ⟨hid, e, he⟩ := fetchAssetUrl_of_throws himg
      exact ⟨e, by simp [hid, he]⟩
    · rw [Bool.not_eq_true] at himg
      have hrest : ∃ ref ∈ rest, assetFetchThrows env net ref = true := by
        obtain ⟨ref, hr, ht⟩ := h
        rcases List.mem_cons.1 hr with hr | hr
        · rw [hr, himg] at ht; cases ht
        · exact ⟨ref, hr, ht⟩
      by_cases hid : img.sys.id = ""
      · simp only [hid, ne_eq, not_true_eq_false, if_false]
        exact ih acc hrest
      · simp only [ne_eq, hid, not_false_eq_true, if_true]
        rw [fetchAssetUrl_of_not_throws hid himg]
        cases fetchedUrl env net img with
        | none => exact ih acc hrest
        | some v => exact ih (acc ++ [v]) hrest

theorem resolveImagesByFetch_of_throws {env : Env} {net : Net} {image : Option ImageField}
    (h : ∃ ref ∈ imageRefs image, assetFetchThrows env net ref = true) :
    ∃ e, resolveImagesByFetch env net image = .error e := by
  match image, h with
  | none, h => obtain ⟨_, hr, _⟩ := h; simp [imageRefs] at hr
  | some (.many refs), h => exact fetchImages_of_throws env net refs [] h
  | some (.single ref), h =>
    obtain ⟨r, hr, ht⟩ := h
    simp only [imageRefs, List.mem_singleton] at hr
    subst hr
    obtain ⟨hid, e, he⟩ := fetchAssetUrl_of_throws ht
    exact ⟨e, by simp [resolveImagesByFetch, hid, he]⟩

theorem discoverCategories_ok {env : Env} {net : Net} {r : Response Collection}
    {d : Collection} {items : List RawEntry}
    (h1 : net.entries (allProductsUrl env) = .ok r) (h2 : r.ok = true)
    (h3 : r.json = .ok d) (h4 : d.items = some items) :
    discoverCategories env net = .ok (sortedCategories items) := by
  simp [discoverCategories, h1, h2, h3, h4]

theorem discoverCategories_not_ok {env : Env} {net : Net} {r : Response Collection}
    (h1 : net.entries (allProductsUrl env) = .ok r) (h2 : r.ok = false) :
    discoverCategories env net = .ok [] := by
  simp [discoverCategories, h1, h2]

theorem truthyStr_eq_some_iff {x : Option String} {c : String} :
    truthyStr x = some c ↔ x = some c ∧ c ≠ "" := by
  cases x with
  | none => simp [truthyStr]
  | some t =>
    by_cases ht : t = ""
    · subst ht
      simp only [truthyStr, if_true, Option.some.injEq]
      constructor
      · intro h; cases h
      · rintro ⟨h, hc⟩; exact absurd h.symm hc
    · simp only [truthyStr, ht, if_false, Option.some.injEq]
      constructor
      · intro h; exact ⟨h, h ▸ ht⟩
      · intro h; exact h.1

theorem setAdd_nodup {s : List String} (c : String) (h : s.Nodup) : (setAdd s c).Nodup := by
  unfold setAdd
  by_cases hc : c ∈ s
  · simp [hc, h]
  · simp only [hc, if_false]
    exact List.Nodup.append h (List.nodup_singleton c) (by simpa using hc)

theorem mem_setAdd {s : List String} {c x : String} : x ∈ setAdd s c ↔ x ∈ s ∨ x = c := by
  unfold setAdd
  by_cases hc : c ∈ s
  · simp only [hc, if_true]
    constructor
    · exact Or.inl
    · rintro (h | h)
      · exact h
      · exact h ▸ hc
  · simp [hc]

theorem foldl_categories_nodup (items : List RawEntry) :
    ∀ s : List String, s.Nodup →
      (items.foldl (fun s item =>
        match truthyStr item.fields.category with
        | some c => setAdd s c
        | none => s) s).Nodup := by
  induction items with
  | nil => intro s h; exact h
  | cons item rest ih =>
    intro s h
    simp only [List.foldl_cons]
    apply ih
    cases truthyStr item.fields.category with
    | none => exact h
    | some c => exact setAdd_nodup c h

theorem foldl_categories_mem (items : List RawEntry) :
    ∀ (s : List String) (x : String),
      x ∈ (items.foldl (fun s item =>
        match truthyStr item.fields.category with
        | some c => setAdd s c
        | none => s) s) ↔
      x ∈ s ∨ ∃ item ∈ items, truthyStr item.fields.category = some x := by
  induction items with
  | nil => intro s x; simp
  | cons item rest ih =>
    intro s x
    simp only [List.foldl_cons]
    rw [ih]
    cases hc : truthyStr item.fields.category with
    | none => simp [hc]
    | some c =>
      simp only [mem_setAdd, List.mem_cons, exists_eq_or_imp, hc, Option.some.injEq]
      constructor
      · rintro ((h | h) | h)
        · exact Or.inl h
        · exact Or.inr (Or.inl h.symm)
        · exact Or.inr (Or.inr h)
      · rintro (h | h | h)
        · exact Or.inl (Or.inl h)
        · exact Or.inl (Or.inr h.symm)
        · exact Or.inr h

theorem mem_sortedCategories {items : List RawEntry} {x : String} :
    x ∈ sortedCategories items ↔ x ≠ "" ∧ ∃ item ∈ items, item.fields.category = some x := by
  unfold sortedCategories categorySet
  rw [List.mem_insertionSort, foldl_categories_mem]
  simp only [List.not_mem_nil, false_or, truthyStr_eq_some_iff]
  constructor
  · rintro ⟨item, hi, hc, hx⟩
    exact ⟨hx, item, hi, hc⟩
  · rintro ⟨hx, item, hi, hc⟩
    exact ⟨item, hi, hc, hx⟩

theorem sortedCategories_nodup (items : List RawEntry) : (sortedCategories items).Nodup := by
  unfold sortedCategories categorySet
  exact (List.perm_insertionSort jsStrLe _).nodup_iff.2
    (foldl_categories_nodup items [] List.nodup_nil)

theorem sortedCategories_sorted (items : List RawEntry) :
    (sortedCategories items).Sorted jsStrLe :=
  List.sorted_insertionSort jsStrLe _

theorem mathCeilDiv_eq_ceil (n d : Nat) (hd : 0 < d) :
    mathCeilDiv n d = ⌈(n : ℚ) / (d : ℚ)⌉₊ := by
  have hdq : (0 : ℚ) < (d : ℚ) := by exact_mod_cast hd
  unfold mathCeilDiv
  by_cases hr : n % d = 0
  · rw [← Nat.cast_div (Nat.dvd_of_mod_eq_zero hr) (ne_of_gt hdq), Nat.ceil_natCast]
    simp [hr]
  · simp only [hr, if_false]
    symm
    rw [Nat.ceil_eq_iff (Nat.succ_ne_zero _), Nat.succ_sub_one]
    have hlt : d * (n / d) < n := by
      have := Nat.div_add_mod n d
      have hpos : 0 < n % d := Nat.pos_of_ne_zero hr
      omega
    have hle : n < d * (n / d + 1) := Nat.lt_mul_div_succ n hd
    constructor
    · rw [lt_div_iff₀ hdq]
      have : ((n / d : ℕ) : ℚ) * (d : ℚ) = ((d * (n / d) : ℕ) : ℚ) := by push_cast; ring
      rw [this]
      exact_mod_cast hlt
    · rw [div_le_iff₀ hdq]
      have : ((n / d + 1 : ℕ) : ℚ) * (d : ℚ) = ((d * (n / d + 1) : ℕ) : ℚ) := by push_cast; ring
      rw [this]
      exact_mod_cast hle.le

theorem error_message_ne_empty (e : String) : "Failed to fetch products: " ++ e ≠ "" := by
  intro h
  have := congrArg String.length h
  simp only [String.length_append] at this
  have h26 : "Failed to fetch products: ".length = 26 := by decide
  have h0 : "".length = 0 := by decide
  rw [h26, h0] at this
  omega

theorem append_filter_ne (a x : String) : a ++ "&fields.category=" ++ x ≠ a := by
  intro h
  have := congrArg String.length h
  simp only [String.length_append] at this
  have h17 : "&fields.category=".length = 17 := by decide
  rw [h17] at this
  omega

theorem url_of_filter {env : Env} {query : Query} {cat : String}
    (h1 : query.category = some cat) (h2 : cat ≠ "") (h3 : cat ≠ "all") :
    url env query = baseUrl env query ++ "&fields.category=" ++ encodeURIComponent cat := by
  simp [url, categoryFilter, truthyStr, h1, h2, h3]

theorem url_ne_baseUrl_iff (env : Env) (query : Query) :
    url env query ≠ baseUrl env query ↔
      ∃ cat, query.category = some cat ∧ cat ≠ "" ∧ cat ≠ "all" := by
  constructor
  · intro h
    cases hq : query.category with
    | none => exact absurd (by simp [url, categoryFilter, truthyStr, hq]) h
    | some cat =>
      by_cases h2 : cat = ""
      · exact absurd (by simp [url, categoryFilter, truthyStr, hq, h2]) h
      · by_cases h3 : cat = "all"
        · exact absurd (by simp [url, categoryFilter, truthyStr, hq, h3]) h
        · exact ⟨cat, rfl, h2, h3⟩
  · rintro ⟨cat, h1, h2, h3⟩
    rw [url_of_filter h1 h2 h3]
    exact append_filter_ne _ _

theorem viewDetail_of_mem {p : Product} {cache : List Product}
    (h : ∃ q ∈ cache, q.id = p.id) : viewDetail (some p) cache = cache := by
  obtain ⟨q, hq, hid⟩ := h
  cases hf : cache.find? (fun q => q.id = p.id) with
  | none =>
    have := List.find?_eq_none.1 hf q hq
    simp [hid] at this
  | some r => simp [viewDetail, hf]

theorem viewDetail_of_not_mem {p : Product} {cache : List Product}
    (h : ∀ q ∈ cache, q.id ≠ p.id) : viewDetail (some p) cache = cache ++ [p] := by
  have hf : cache.find? (fun q => q.id = p.id) = none := by
    rw [List.find?_eq_none]
    intro q hq
    simpa using h q hq
  simp [viewDetail, hf]

theorem assetFetchThrows_eq_isSome (env : Env) (net : Net) (ref : AssetReference) :
    assetFetchThrows env net ref = (assetFetchError env net ref).isSome := by
  unfold assetFetchThrows assetFetchError
  by_cases hid : ref.sys.id = ""
  · simp [hid]
  · cases hn : net.asset (assetUrl env ref.sys.id) with
    | error e => simp [hid]
    | ok r =>
      by_cases hok : r.ok = true
      · cases hj : r.json <;> simp [hid, hok, hj]
      · simp [hid, hok]

theorem fetchAssetUrl_of_error {env : Env} {net : Net} {ref : AssetReference} {e : String}
    (h : assetFetchError env net ref = some e) :
    ref.sys.id ≠ "" ∧ fetchAssetUrl env net ref.sys.id = .error e := by
  unfold assetFetchError at h
  unfold fetchAssetUrl
  have hid : ref.sys.id ≠ "" := by
    intro hid; simp [hid] at h
  refine ⟨hid, ?_⟩
  cases hn : net.asset (assetUrl env ref.sys.id) with
  | error e2 =>
    simp only [hn, ne_eq, hid, not_false_eq_true, if_true, Option.some.injEq] at h
    rw [h]
  | ok r =>
    by_cases hok : r.ok = true
    · cases hj : r.json with
      | error e2 =>
        simp only [hn, ne_eq, hid, not_false_eq_true, if_true, hok, hj, Option.some.injEq] at h
        simp [hok, hj, h]
      | ok a => simp [hn, hid, hok, hj] at h
    · simp [hn, hid, hok] at h

theorem fetchImages_first_error (env : Env) (net : Net) (refs : List AssetReference) :
    ∀ (acc : List String) (e : String), firstAssetError env net refs = some e →
      fetchImages env net refs acc = .error e := by
  induction refs with
  | nil => intro acc e h; simp [firstAssetError] at h
  | cons img rest ih =>
    intro acc e h
    unfold fetchImages
    cases himg : assetFetchError env net img with
    | some e2 =>
      have he : e2 = e := by
        simpa [firstAssetError, List.findSome?_cons, himg] using h
      obtain ⟨hid, hf⟩ := fetchAssetUrl_of_error himg
      simp [hid, hf, he]
    | none =>
      have hrest : firstAssetError env net rest = some e := by
        simpa [firstAssetError, List.findSome?_cons, himg] using h
      have hthrow : assetFetchThrows env net img = false := by
        rw [assetFetchThrows_eq_isSome, himg]; rfl
      by_cases hid : img.sys.id = ""
      · simp only [hid, ne_eq, not_true_eq_false, if_false]
        exact ih acc e hrest
      · simp only [ne_eq, hid, not_false_eq_true, if_true]
        rw [fetchAssetUrl_of_not_throws hid hthrow]
        cases fetchedUrl env net img with
        | none => exact ih acc e hrest
        | some v => exact ih (acc ++ [v]) e hrest

theorem resolveImagesByFetch_first_error {env : Env} {net : Net} {image : Option ImageField}
    {e : String} (h : firstAssetError env net (imageRefs image) = some e) :
    resolveImagesByFetch env net image = .error e := by
  match image, h with
  | none, h => simp [firstAssetError, imageRefs] at h
  | some (.many refs), h => exact fetchImages_first_error env net refs [] e h
  | some (.single ref), h =>
    have href : assetFetchError env net ref = some e := by
      cases hx : assetFetchError env net ref with
      | none => simp [firstAssetError, imageRefs, List.findSome?_cons, hx] at h
      | some v => simpa [firstAssetError, imageRefs, List.findSome?_cons, hx] using h
    obtain ⟨hid, hf⟩ := fetchAssetUrl_of_error href
    simp [resolveImagesByFetch, hid, hf]

theorem firstAssetError_of_throws {env : Env} {net : Net} {refs : List AssetReference}
    (h : ∃ ref ∈ refs, assetFetchThrows env net ref = true) :
    ∃ e, firstAssetError env net refs = some e := by
  obtain ⟨ref, href, ht⟩ := h
  rw [assetFetchThrows_eq_isSome] at ht
  cases hf : firstAssetError env net refs with
  | some e => exact ⟨e, rfl⟩
  | none =>
    have := List.findSome?_eq_none_iff.1 hf ref href
    rw [this] at ht
    cases ht

/-! ## Theorems -/

/-- Claim C1, as amended: when the page query succeeds with at least one entry
and the category query returns a non-success response, the listing carries
the normalized products of the page, `error = null` and `categories = []`;
when the category `fetch` is rejected instead, the `catch` block returns the
empty listing with the message of the failure. -/
theorem list_category_failure (env : Env) (net : Net) (query : Query)
    (response : Response Collection) (data : Collection) (item : RawEntry)
    (rest : List RawEntry)
    (h1 : net.entries (url env query) = .ok response) (h2 : response.ok = true)
    (h3 : response.json = .ok data) (h4 : data.items = some (item :: rest)) :
    (∀ r : Response Collection, net.entries (allProductsUrl env) = .ok r → r.ok = false →
      getServerSideProps env net query =
        { products := (item :: rest).map (mapItem (assetsOf data)), error := none,
          page := pageOf query, totalProducts := data.total.getD 0,
          totalPages := mathCeilDiv (data.total.getD 0) limit, categories := [] }) ∧
    (∀ e : String, net.entries (allProductsUrl env) = .error e →
      getServerSideProps env net query =
        { products := [], error := some ("Failed to fetch products: " ++ e), page := some 1,
          totalProducts := 0, totalPages := 1, categories := [] }) := by
  constructor
  · intro r hr hok
    have hc : discoverCategories env net = .ok [] := by
      simp [discoverCategories, hr, hok]
    simp [getServerSideProps, listTry_entries h1 h2 h3 h4 hc]
  · intro e he
    have hc : discoverCategories env net = .error e := by
      simp [discoverCategories, he]
    simp [getServerSideProps, listTry_category_error h1 h2 h3 hc]

/-- Witness for claim C1: the category query answers 500 while
the page query returns three entries. -/
theorem list_category_failure_witness :
    getServerSideProps demoEnv netCategoryDown demoQuery =
      { products := (demoPage.items.getD []).map (mapItem demoAssets), error := none,
        page := some 1, totalProducts := 3, totalPages := 1, categories := [] } :=
  (list_category_failure demoEnv netCategoryDown demoQuery ⟨200, .ok demoPage⟩ demoPage
    (shoeEntry "p1" (some 25) (some (.many [⟨⟨"a1"⟩⟩, ⟨⟨"zz"⟩⟩])))
    [shoeEntry "p2" (some 0) (some (.single ⟨⟨"a2"⟩⟩)), shoeEntry "p3" none none]
    rfl (by decide) rfl rfl).1 ⟨500, .error "Unexpected token"⟩ rfl (by decide)

/-- Claim C1 as stated fails: the page query succeeds with three entries, the
category `fetch` is rejected, and the listing is empty with an error. -/
theorem list_category_throw_counterexample :
    netCategoryThrows.entries (url demoEnv demoQuery) = .ok ⟨200, .ok demoPage⟩ ∧
    netCategoryThrows.entries (allProductsUrl demoEnv) = .error "network down" ∧
    (getServerSideProps demoEnv netCategoryThrows demoQuery).products = [] ∧
    (getServerSideProps demoEnv netCategoryThrows demoQuery).error =
      some "Failed to fetch products: network down" := by
  refine ⟨rfl, rfl, by decide, by decide⟩

/-- Claim C2, as amended: in both paths a non-zero numeric price is passed
through unmodified; the price of the product is absent exactly when the raw
price is absent or is `0`; the price of a product is never `0`, so an absent
price is never turned into `0`. -/
theorem price_passthrough (assets : List Asset) (item : RawEntry) (images : List String) :
    (∀ n : ℚ, item.fields.price = some n → n ≠ 0 →
      (mapItem assets item).price = some n ∧ (mkProduct item images).price = some n) ∧
    ((mapItem assets item).price = none ↔
      (item.fields.price = none ∨ item.fields.price = some 0)) ∧
    ((mkProduct item images).price = none ↔
      (item.fields.price = none ∨ item.fields.price = some 0)) ∧
    (mapItem assets item).price ≠ some 0 ∧ (mkProduct item images).price ≠ some 0 := by
  cases hp : item.fields.price with
  | none => simp [mapItem, mkProduct, numOrNull, hp]
  | some m =>
    by_cases hm : m = 0
    · subst hm; simp [mapItem, mkProduct, numOrNull, hp]
    · simp only [mapItem, mkProduct, numOrNull, hp, hm, if_false]
      refine ⟨?_, by simp [hm], by simp [hm], by simp [hm], by simp [hm]⟩
      intro n hn _
      exact ⟨hn, hn⟩

/-- Witness for claim C2: a price of 25 is kept by both paths. -/
theorem price_passthrough_witness :
    (mapItem demoAssets (shoeEntry "p1" (some 25) none)).price = some 25 ∧
    (mkProduct (shoeEntry "p1" (some 25) none) []).price = some 25 :=
  (price_passthrough demoAssets (shoeEntry "p1" (some 25) none) []).1 25 rfl (by decide)

/-- Claim C2 as stated fails at the price `0`: the raw entry has the numeric
price `0` and the product built by either path has no price. -/
theorem price_zero_counterexample :
    (shoeEntry "p2" (some 0) none).fields.price = some 0 ∧
    (mapItem demoAssets (shoeEntry "p2" (some 0) none)).price = none ∧
    (mkProduct (shoeEntry "p2" (some 0) none) []).price = none := by
  refine ⟨rfl, by decide, by decide⟩

/-- Claim C3: normalization is a total function of the entry and the assets,
and the product it builds satisfies the image/images invariant (a non-empty
`images` has `image = images[0]`, an empty one has `image = null`), in the
listing path for every asset collection and in the detail path for every
outcome of the image resolution; in the detail path the resolution returns
whenever no secondary fetch raises. -/
theorem normalize_image_invariant (env : Env) (net : Net) (assets : List Asset)
    (item : RawEntry) :
    ((∀ u rest, (mapItem assets item).images = u :: rest → (mapItem assets item).image = some u) ∧
      ((mapItem assets item).images = [] → (mapItem assets item).image = none)) ∧
    (∀ images, resolveImagesByFetch env net item.fields.image = .ok images →
      (∀ u rest, (mkProduct item images).images = u :: rest →
        (mkProduct item images).image = some u) ∧
      ((mkProduct item images).images = [] → (mkProduct item images).image = none)) ∧
    ((∀ ref ∈ imageRefs item.fields.image, assetFetchThrows env net ref = false) →
      ∃ images, resolveImagesByFetch env net item.fields.image = .ok images) := by
  refine ⟨?_, ?_, ?_⟩
  · have h := primaryImage_eq_head (resolveImages_truthy assets item.fields.image)
    constructor
    · intro u rest hu
      simp only [mapItem, mkProduct] at hu ⊢
      rw [h, hu]; rfl
    · intro hu
      simp only [mapItem, mkProduct] at hu ⊢
      rw [h, hu]; rfl
  · intro images himg
    have h := primaryImage_eq_head (resolveImagesByFetch_truthy himg)
    constructor
    · intro u rest hu
      simp only [mkProduct] at hu ⊢
      rw [h, hu]; rfl
    · intro hu
      simp only [mkProduct] at hu ⊢
      rw [h, hu]; rfl
  · intro h
    exact ⟨_, resolveImagesByFetch_of_not_throws h⟩

/-- Witness for claim C3: a listing product with one
resolved image, one with none, and the detail product of `p1`, whose second
asset is a 404. -/
theorem normalize_image_invariant_witness :
    (mapItem demoAssets detailEntry).image = some "//images.ctfassets.net/a1.png" ∧
    (mapItem demoAssets (shoeEntry "p3" none none)).image = none ∧
    (mkProduct detailEntry ["//images.ctfassets.net/a1.png"]).image =
      some "//images.ctfassets.net/a1.png" ∧
    (∃ images, resolveImagesByFetch demoEnv netDetail404 detailEntry.fields.image = .ok images) :=
  ⟨(normalize_image_invariant demoEnv netDetail404 demoAssets detailEntry).1.1
      "//images.ctfassets.net/a1.png" [] (by decide),
   (normalize_image_invariant demoEnv netDetail404 demoAssets (shoeEntry "p3" none none)).1.2
      (by decide),
   ((normalize_image_invariant demoEnv netDetail404 demoAssets detailEntry).2.1
      ["//images.ctfassets.net/a1.png"] rfl).1 "//images.ctfassets.net/a1.png" [] rfl,
   (normalize_image_invariant demoEnv netDetail404 demoAssets detailEntry).2.2
      (by decide)⟩

/-- Claim C4: for an array of references the listing-path resolver returns
the URLs prescribed by the specification (first asset with the same id,
carrying a URL), reference by reference and in the order of the references;
the output is the image of a sub-sequence of the references and is never
longer than the input; an absent field gives the empty sequence and a single
reference gives at most one URL. -/
theorem resolve_listing (assets : List Asset) (refs : List AssetReference)
    (ref : AssetReference) :
    resolveImages assets (some (.many refs)) = resolveSpec assets refs ∧
    (∃ kept : List AssetReference, kept.Sublist refs ∧
      kept.map (lookupUrl assets) = (resolveImages assets (some (.many refs))).map some) ∧
    (resolveImages assets (some (.many refs))).length ≤ refs.length ∧
    resolveImages assets none = [] ∧
    (resolveImages assets (some (.single ref))).length ≤ 1 := by
  refine ⟨resolveImages_many_eq_spec assets refs, ?_, ?_, rfl, ?_⟩
  · refine ⟨refs.filter (fun r => (lookupUrl assets r).isSome), List.filter_sublist _, ?_⟩
    simp only [resolveImages, List.filterMap_map, Function.comp, id]
    induction refs with
    | nil => rfl
    | cons r rest ih =>
      cases hl : lookupUrl assets r with
      | none => simp [List.filter_cons, List.filterMap_cons, hl, ih]
      | some v => simp [List.filter_cons, List.filterMap_cons, hl, ih]
  · simp only [resolveImages]
    exact (List.length_filterMap_le _ _).trans (by simp)
  · unfold resolveImages
    by_cases hid : ref.sys.id = ""
    · simp [hid]
    · cases hl : lookupUrl assets ref <;> simp [hid, hl]

/-- Claim C5, as amended: when the entry is fetched successfully and no
secondary asset fetch raises, the outcome is a product with `error = null`
whose images are the URLs of the references whose asset fetch succeeded with a
URL, in reference order; a reference whose fetch returns a non-success
response is skipped.  When a secondary fetch raises (the `fetch` is rejected),
the `catch` block returns the Error outcome instead: `product = null` and the
error `Failed to fetch product: ` followed by the message of the first failure,
which for a rejected `fetch` is the message of the rejection. -/
theorem detail_asset_failure (env : Env) (net : Net) (id : String)
    (response : Response RawEntry) (item : RawEntry)
    (h1 : net.entry (entryUrl env id) = .ok response) (h2 : response.ok = true)
    (h3 : response.json = .ok item) :
    ((∀ ref ∈ imageRefs item.fields.image, assetFetchThrows env net ref = false) →
      getStaticProps env net id =
        .props (some (mkProduct item ((imageRefs item.fields.image).filterMap (fetchedUrl env net))))
          none (some 60)) ∧
    (∀ (ref : AssetReference) (r : Response Asset),
      net.asset (assetUrl env ref.sys.id) = .ok r → r.ok = false →
        assetFetchThrows env net ref = false ∧ fetchedUrl env net ref = none) ∧
    ((∃ ref ∈ imageRefs item.fields.image, assetFetchThrows env net ref = true) →
      ∃ e, firstAssetError env net (imageRefs item.fields.image) = some e ∧
        getStaticProps env net id =
          .props none (some ("Failed to fetch product: " ++ e)) none) ∧
    (∀ e : String, firstAssetError env net (imageRefs item.fields.image) = some e →
      getStaticProps env net id =
        .props none (some ("Failed to fetch product: " ++ e)) none) ∧
    (∀ (pre post : List AssetReference) (ref : AssetReference) (e : String),
      imageRefs item.fields.image = pre ++ ref :: post →
      (∀ earlier ∈ pre, assetFetchThrows env net earlier = false) →
      ref.sys.id ≠ "" → net.asset (assetUrl env ref.sys.id) = .error e →
      getStaticProps env net id =
        .props none (some ("Failed to fetch product: " ++ e)) none) := by
  have herr : ∀ e : String, firstAssetError env net (imageRefs item.fields.image) = some e →
      getStaticProps env net id =
        .props none (some ("Failed to fetch product: " ++ e)) none := by
    intro e he
    simp [getStaticProps, detailTry, h1, h2, h3, resolveImagesByFetch_first_error he]
  refine ⟨?_, ?_, ?_, herr, ?_⟩
  · intro h
    simp [getStaticProps, detailTry, h1, h2, h3, resolveImagesByFetch_of_not_throws h]
  · intro ref r hr hok
    constructor
    · simp [assetFetchThrows, hr, hok]
    · simp [fetchedUrl, hr, hok]
  · intro h
    obtain ⟨e, he⟩ := firstAssetError_of_throws h
    exact ⟨e, he, herr e he⟩
  · intro pre post ref e hrefs hpre hid hrej
    apply herr
    rw [hrefs, firstAssetError, List.findSome?_append]
    have hnone : List.findSome? (assetFetchError env net) pre = none := by
      rw [List.findSome?_eq_none_iff]
      intro earlier hmem
      have := hpre earlier hmem
      rw [assetFetchThrows_eq_isSome] at this
      cases hx : assetFetchError env net earlier with
      | none => rfl
      | some v => rw [hx] at this; cases this
    have hthis : assetFetchError env net ref = some e := by
      simp [assetFetchError, hid, hrej]
    simp [hnone, List.findSome?_cons, hthis]

/-- Witness for claim C5: the entry references `a1` and `a2`,
`a1` resolves and `a2` is a 404; `images` has length 1 and `image` is that one
URL.  When the fetch of `a2` is rejected with `network down` instead, the
error carries that message. -/
theorem detail_asset_failure_witness :
    getStaticProps demoEnv netDetail404 "p1" =
      .props (some (mkProduct detailEntry ["//images.ctfassets.net/a1.png"])) none (some 60) ∧
    (mkProduct detailEntry ["//images.ctfassets.net/a1.png"]).images.length = 1 ∧
    (mkProduct detailEntry ["//images.ctfassets.net/a1.png"]).image =
      some "//images.ctfassets.net/a1.png" ∧
    getStaticProps demoEnv netDetailThrows "p1" =
      .props none (some ("Failed to fetch product: " ++ "network down")) none :=
  ⟨(detail_asset_failure demoEnv netDetail404 "p1" ⟨200, .ok detailEntry⟩ detailEntry
      rfl (by decide) rfl).1 (by decide), by decide, by decide,
   (detail_asset_failure demoEnv netDetailThrows "p1" ⟨200, .ok detailEntry⟩ detailEntry
      rfl (by decide) rfl).2.2.2.2 [⟨⟨"a1"⟩⟩] [] ⟨⟨"a2"⟩⟩ "network down" rfl (by decide)
      (by decide) rfl⟩

/-- Claim C5 as stated fails: the entry is fetched successfully, the asset
`a1` resolves, the fetch of the asset `a2` is rejected, and the outcome is the
Error outcome without a product. -/
theorem detail_asset_throw_counterexample :
    netDetailThrows.entry (entryUrl demoEnv "p1") = .ok ⟨200, .ok detailEntry⟩ ∧
    netDetailThrows.asset (assetUrl demoEnv "a1") = .ok ⟨200, .ok assetA1⟩ ∧
    netDetailThrows.asset (assetUrl demoEnv "a2") = .error "network down" ∧
    getStaticProps demoEnv netDetailThrows "p1" =
      .props none (some "Failed to fetch product: network down") none := by
  refine ⟨rfl, rfl, rfl, by decide⟩

/-- Claim C6: a non-success entry response with status 404 gives the NotFound
outcome; any other non-success response, and a rejected `fetch`, give the
Error outcome with `product = null` and a message starting with
`Failed to fetch product: `; the NotFound outcome differs from every outcome
that carries props. -/
theorem getById_outcomes (env : Env) (net : Net) (id : String) :
    (∀ r : Response RawEntry, net.entry (entryUrl env id) = .ok r → r.status = 404 →
      r.ok = false ∧ getStaticProps env net id = .notFound) ∧
    (∀ r : Response RawEntry, net.entry (entryUrl env id) = .ok r → r.ok = false →
      r.status ≠ 404 →
      getStaticProps env net id =
        .props none (some ("Failed to fetch product: " ++ "Failed to fetch product details")) none) ∧
    (∀ e : String, net.entry (entryUrl env id) = .error e →
      getStaticProps env net id = .props none (some ("Failed to fetch product: " ++ e)) none) ∧
    (∀ (product : Option Product) (error : Option String) (revalidate : Option Nat),
      StaticResult.notFound ≠ .props product error revalidate) := by
  refine ⟨?_, ?_, ?_, ?_⟩
  · intro r hr hs
    have hok : r.ok = false := by simp [Response.ok, hs]
    exact ⟨hok, by simp [getStaticProps, detailTry, hr, hok, hs]⟩
  · intro r hr hok hs
    simp [getStaticProps, detailTry, hr, hok, hs]
  · intro e he
    simp [getStaticProps, detailTry, he]
  · intro product error revalidate h
    cases h

/-- Witness for claim C6: a 404, a 500 and a rejected fetch. -/
theorem getById_outcomes_witness :
    getStaticProps demoEnv netDetail404 "nope" = .notFound ∧
    getStaticProps demoEnv netDetailThrows "nope" =
      .props none (some ("Failed to fetch product: " ++ "Failed to fetch product details")) none ∧
    getStaticProps demoEnv netOffline "p1" =
      .props none (some ("Failed to fetch product: " ++ "network down")) none :=
  ⟨((getById_outcomes demoEnv netDetail404 "nope").1
      ⟨404, .error "Unexpected end of JSON input"⟩ rfl rfl).2,
   (getById_outcomes demoEnv netDetailThrows "nope").2.1
      ⟨500, .error "Unexpected end of JSON input"⟩ rfl (by decide) (by decide),
   (getById_outcomes demoEnv netOffline "p1").2.2.1 "network down" rfl⟩

/-- Claim C7, as amended: when the page query succeeds with `items` absent or
empty and the category query returns a response, the listing has no product,
`totalProducts = 0`, `totalPages = 1`, `error = null`, the requested page, and
the categories discovered by the category query: the sorted distinct categories
of a successful category response, and `[]` for a non-success one.  When the
category `fetch` is rejected instead, the `catch` block returns the empty
listing with `page = 1` and the message of the failure. -/
theorem list_empty_page (env : Env) (net : Net) (query : Query)
    (response : Response Collection) (data : Collection)
    (h1 : net.entries (url env query) = .ok response) (h2 : response.ok = true)
    (h3 : response.json = .ok data) (h4 : data.items = none ∨ data.items = some []) :
    (∀ (r : Response Collection) (d : Collection) (items : List RawEntry),
      net.entries (allProductsUrl env) = .ok r → r.ok = true → r.json = .ok d →
      d.items = some items →
      getServerSideProps env net query =
        { products := [], error := none, page := pageOf query, totalProducts := 0,
          totalPages := 1, categories := sortedCategories items }) ∧
    (∀ r : Response Collection, net.entries (allProductsUrl env) = .ok r → r.ok = false →
      getServerSideProps env net query =
        { products := [], error := none, page := pageOf query, totalProducts := 0,
          totalPages := 1, categories := [] }) ∧
    (∀ e : String, net.entries (allProductsUrl env) = .error e →
      getServerSideProps env net query =
        { products := [], error := some ("Failed to fetch products: " ++ e), page := some 1,
          totalProducts := 0, totalPages := 1, categories := [] }) := by
  refine ⟨?_, ?_, ?_⟩
  · intro r d items hr hok hj hi
    simp [getServerSideProps, listTry_empty h1 h2 h3 h4 (discoverCategories_ok hr hok hj hi)]
  · intro r hr hok
    simp [getServerSideProps, listTry_empty h1 h2 h3 h4 (discoverCategories_not_ok hr hok)]
  · intro e he
    have hc : discoverCategories env net = .error e := by
      simp [discoverCategories, he]
    simp [getServerSideProps, listTry_category_error h1 h2 h3 hc]

/-- Witness for claim C7: `list(page=1, category="all")` on an empty
backend, and a page beyond the last one of the shop. -/
theorem list_empty_page_witness :
    getServerSideProps demoEnv netEmptyBackend ⟨some "1", some "all"⟩ =
      { products := [], error := none, page := some 1, totalProducts := 0, totalPages := 1,
        categories := [] } ∧
    getServerSideProps demoEnv netShop ⟨some "7", none⟩ =
      { products := [], error := none, page := some 7, totalProducts := 0, totalPages := 1,
        categories := ["bags", "hats", "shoes"] } :=
  ⟨(list_empty_page demoEnv netEmptyBackend ⟨some "1", some "all"⟩
      ⟨200, .ok ⟨some [], none, some 0⟩⟩ ⟨some [], none, some 0⟩ rfl (by decide) rfl
      (Or.inr rfl)).1 ⟨200, .ok ⟨some [], none, some 0⟩⟩ ⟨some [], none, some 0⟩ [] rfl
      (by decide) rfl rfl,
   ((list_empty_page demoEnv netShop ⟨some "7", none⟩
      ⟨200, .ok ⟨some [], none, some 0⟩⟩ ⟨some [], none, some 0⟩ rfl (by decide) rfl
      (Or.inr rfl)).1 ⟨200, .ok ⟨some shopEntries, none, some 25⟩⟩
      ⟨some shopEntries, none, some 25⟩ shopEntries rfl (by decide) rfl rfl).trans (by decide)⟩

/-- Claim C7 as stated fails: the page query for page 2 succeeds with no
entry, the category `fetch` is rejected, and the listing carries an error and
the page 1. -/
theorem list_empty_page_category_throw_counterexample :
    netEmptyCategoryThrows.entries (url demoEnv ⟨some "2", some "all"⟩) =
      .ok ⟨200, .ok ⟨some [], none, some 0⟩⟩ ∧
    netEmptyCategoryThrows.entries (allProductsUrl demoEnv) = .error "network down" ∧
    pageOf ⟨some "2", some "all"⟩ = some 2 ∧
    (getServerSideProps demoEnv netEmptyCategoryThrows ⟨some "2", some "all"⟩).error =
      some "Failed to fetch products: network down" ∧
    (getServerSideProps demoEnv netEmptyCategoryThrows ⟨some "2", some "all"⟩).page = some 1 := by
  refine ⟨rfl, rfl, by decide, by decide, by decide⟩

/-- Claim C8: when the page query fails (the `fetch` is rejected, the response
is a non-success one, or its body fails to parse), the operation returns the
empty listing: no product, no category, `page = 1` whatever page was
requested, `totalProducts = 0`, `totalPages = 1`, and the non-empty error
string `Failed to fetch products: ` followed by the message of the failure. -/
theorem list_page_failure (env : Env) (net : Net) (query : Query) :
    (∀ e : String, net.entries (url env query) = .error e →
      getServerSideProps env net query =
        { products := [], error := some ("Failed to fetch products: " ++ e), page := some 1,
          totalProducts := 0, totalPages := 1, categories := [] } ∧
      "Failed to fetch products: " ++ e ≠ "") ∧
    (∀ r : Response Collection, net.entries (url env query) = .ok r → r.ok = false →
      getServerSideProps env net query =
        { products := [],
          error := some ("Failed to fetch products: " ++ "Failed to fetch Contentful products"),
          page := some 1, totalProducts := 0, totalPages := 1, categories := [] }) ∧
    (∀ (r : Response Collection) (e : String), net.entries (url env query) = .ok r →
      r.ok = true → r.json = .error e →
      getServerSideProps env net query =
        { products := [], error := some ("Failed to fetch products: " ++ e), page := some 1,
          totalProducts := 0, totalPages := 1, categories := [] }) := by
  refine ⟨?_, ?_, ?_⟩
  · intro e he
    exact ⟨by simp [getServerSideProps, listTry, he], error_message_ne_empty e⟩
  · intro r hr hok
    simp [getServerSideProps, listTry, hr, hok]
  · intro r e hr hok hj
    simp [getServerSideProps, listTry, hr, hok, hj]

/-- Witness for claim C8: page 7 of the category `shoes` is requested
from a backend that is unreachable, and from one that answers 500. -/
theorem list_page_failure_witness :
    getServerSideProps demoEnv netOffline ⟨some "7", some "shoes"⟩ =
      { products := [], error := some ("Failed to fetch products: " ++ "network down"),
        page := some 1, totalProducts := 0, totalPages := 1, categories := [] } ∧
    getServerSideProps demoEnv netPageDown ⟨some "7", some "shoes"⟩ =
      { products := [],
        error := some ("Failed to fetch products: " ++ "Failed to fetch Contentful products"),
        page := some 1, totalProducts := 0, totalPages := 1, categories := [] } :=
  ⟨((list_page_failure demoEnv netOffline ⟨some "7", some "shoes"⟩).1 "network down" rfl).1,
   (list_page_failure demoEnv netPageDown ⟨some "7", some "shoes"⟩).2.1
      ⟨500, .error "Unexpected token"⟩ rfl (by decide)⟩

/-- Claim C9: when the page query and the category query succeed, the
categories of the listing are the distinct non-empty category values of the
entries of the unfiltered category response: no duplicate, no empty string,
exactly the non-empty categories occurring in that response, sorted ascending
in the order of `Array.prototype.sort` (lexicographic on UTF-16 code units).
They are a function of that response alone: any other query whose page query
succeeds gets the same categories. -/
theorem categories_discovered (env : Env) (net : Net) (query : Query)
    (response : Response Collection) (data : Collection)
    (r : Response Collection) (d : Collection) (items : List RawEntry)
    (h1 : net.entries (url env query) = .ok response) (h2 : response.ok = true)
    (h3 : response.json = .ok data)
    (hc1 : net.entries (allProductsUrl env) = .ok r) (hc2 : r.ok = true)
    (hc3 : r.json = .ok d) (hc4 : d.items = some items) :
    (getServerSideProps env net query).categories.Nodup ∧
    "" ∉ (getServerSideProps env net query).categories ∧
    (∀ c : String, c ∈ (getServerSideProps env net query).categories ↔
      (c ≠ "" ∧ ∃ item ∈ items, item.fields.category = some c)) ∧
    (getServerSideProps env net query).categories.Sorted jsStrLe ∧
    (getServerSideProps env net query).categories.Pairwise (fun a b => jsStrLe a b ∧ a ≠ b) ∧
    (getServerSideProps env net query).categories = sortedCategories items ∧
    (∀ (query2 : Query) (response2 : Response Collection) (data2 : Collection),
      net.entries (url env query2) = .ok response2 → response2.ok = true →
      response2.json = .ok data2 →
      (getServerSideProps env net query2).categories =
        (getServerSideProps env net query).categories) := by
  have hcat : ∀ (q : Query) (resp : Response Collection) (dat : Collection),
      net.entries (url env q) = .ok resp → resp.ok = true → resp.json = .ok dat →
      (getServerSideProps env net q).categories = sortedCategories items := by
    intro q resp dat hq1 hq2 hq3
    have hd := discoverCategories_ok hc1 hc2 hc3 hc4
    rcases hi : dat.items with _ | _ | ⟨item, rest⟩
    · simp [getServerSideProps, listTry_empty hq1 hq2 hq3 (Or.inl hi) hd]
    · simp [getServerSideProps, listTry_empty hq1 hq2 hq3 (Or.inr hi) hd]
    · simp [getServerSideProps, listTry_entries hq1 hq2 hq3 hi hd]
  have hq := hcat query response data h1 h2 h3
  rw [hq]
  refine ⟨sortedCategories_nodup items, ?_, fun c => mem_sortedCategories,
    sortedCategories_sorted items, ?_, rfl, ?_⟩
  · intro h
    exact (mem_sortedCategories.1 h).1 rfl
  · exact (sortedCategories_sorted items).and (sortedCategories_nodup items)
  · intro query2 response2 data2 hq1 hq2 hq3
    exact hcat query2 response2 data2 hq1 hq2 hq3

/-- Witness for claim C9: the shop of 25 entries, filtered on
`shoes`, offers the categories `bags`, `hats`, `shoes`. -/
theorem categories_discovered_witness :
    (getServerSideProps demoEnv netShop demoQuery).categories = ["bags", "hats", "shoes"] :=
  ((categories_discovered demoEnv netShop demoQuery ⟨200, .ok demoPage⟩ demoPage
      ⟨200, .ok ⟨some shopEntries, none, some 25⟩⟩ ⟨some shopEntries, none, some 25⟩ shopEntries
      rfl (by decide) rfl rfl (by decide) rfl rfl).2.2.2.2.2.1).trans (by decide)

/-- Claim C10, as amended: when the page query succeeds with at least one entry
and reports a total, and the category query returns a response, the listing
has `totalProducts` equal to that total, `totalPages = ceil(totalProducts / 10)`,
one product per entry of the page in the same order, `error = null`, and the
categories of the unfiltered query: the sorted distinct categories of a
successful category response, `[]` for a non-success one.  When the category
`fetch` is rejected instead, the `catch` block returns the empty listing with
the message of the failure. -/
theorem list_totals (env : Env) (net : Net) (query : Query)
    (response : Response Collection) (data : Collection) (item : RawEntry)
    (rest : List RawEntry) (total : Nat)
    (h1 : net.entries (url env query) = .ok response) (h2 : response.ok = true)
    (h3 : response.json = .ok data) (h4 : data.items = some (item :: rest))
    (h5 : data.total = some total) :
    (∀ (r : Response Collection) (d : Collection) (items : List RawEntry),
      net.entries (allProductsUrl env) = .ok r → r.ok = true → r.json = .ok d →
      d.items = some items →
      getServerSideProps env net query =
        { products := (item :: rest).map (mapItem (assetsOf data)), error := none,
          page := pageOf query, totalProducts := total,
          totalPages := ⌈(total : ℚ) / 10⌉₊, categories := sortedCategories items }) ∧
    (∀ r : Response Collection, net.entries (allProductsUrl env) = .ok r → r.ok = false →
      getServerSideProps env net query =
        { products := (item :: rest).map (mapItem (assetsOf data)), error := none,
          page := pageOf query, totalProducts := total,
          totalPages := ⌈(total : ℚ) / 10⌉₊, categories := [] }) ∧
    ((item :: rest).map (mapItem (assetsOf data))).length = (item :: rest).length ∧
    ((item :: rest).map (mapItem (assetsOf data))).map (fun p => p.id) =
      (item :: rest).map (fun entry => entry.sys.id) ∧
    (∀ e : String, net.entries (allProductsUrl env) = .error e →
      getServerSideProps env net query =
        { products := [], error := some ("Failed to fetch products: " ++ e), page := some 1,
          totalProducts := 0, totalPages := 1, categories := [] }) := by
  have hceil : mathCeilDiv total limit = ⌈(total : ℚ) / 10⌉₊ := by
    have h := mathCeilDiv_eq_ceil total limit (by decide)
    simpa [limit] using h
  have hres : ∀ categories : List String, discoverCategories env net = .ok categories →
      getServerSideProps env net query =
        { products := (item :: rest).map (mapItem (assetsOf data)), error := none,
          page := pageOf query, totalProducts := total,
          totalPages := ⌈(total : ℚ) / 10⌉₊, categories := categories } := by
    intro categories hc
    have hl := listTry_entries h1 h2 h3 h4 hc
    rw [h5] at hl
    simp only [Option.getD_some] at hl
    rw [hceil] at hl
    simp [getServerSideProps, hl]
  refine ⟨?_, ?_, by simp, ?_, ?_⟩
  · intro r d items hr hok hj hi
    exact hres _ (discoverCategories_ok hr hok hj hi)
  · intro r hr hok
    exact hres _ (discoverCategories_not_ok hr hok)
  · simp [mapItem, mkProduct, Function.comp_def]
  · intro e he
    have hc : discoverCategories env net = .error e := by
      simp [discoverCategories, he]
    simp [getServerSideProps, listTry_category_error h1 h2 h3 hc]

/-- Witness for claim C10: the filter `shoes` matches 3 of the 25 entries of
the shop; the listing has 3 products and 1 page, and its categories are those
of the whole shop.  With a category query answering 500 the totals are the
same and the categories are empty. -/
theorem list_totals_witness :
    getServerSideProps demoEnv netShop demoQuery =
      { products := (demoPage.items.getD []).map (mapItem demoAssets), error := none,
        page := some 1, totalProducts := 3, totalPages := ⌈((3 : ℕ) : ℚ) / 10⌉₊,
        categories := sortedCategories shopEntries } ∧
    (getServerSideProps demoEnv netShop demoQuery).totalPages = 1 ∧
    (getServerSideProps demoEnv netShop demoQuery).products.length = 3 ∧
    (getServerSideProps demoEnv netShop demoQuery).products.map (fun p => p.id) =
      ["p1", "p2", "p3"] ∧
    (getServerSideProps demoEnv netShop demoQuery).categories = ["bags", "hats", "shoes"] ∧
    shopEntries.length = 25 ∧
    getServerSideProps demoEnv netCategoryDown demoQuery =
      { products := (demoPage.items.getD []).map (mapItem demoAssets), error := none,
        page := some 1, totalProducts := 3, totalPages := ⌈((3 : ℕ) : ℚ) / 10⌉₊,
        categories := [] } :=
  ⟨(list_totals demoEnv netShop demoQuery ⟨200, .ok demoPage⟩ demoPage
      (shoeEntry "p1" (some 25) (some (.many [⟨⟨"a1"⟩⟩, ⟨⟨"zz"⟩⟩])))
      [shoeEntry "p2" (some 0) (some (.single ⟨⟨"a2"⟩⟩)), shoeEntry "p3" none none] 3
      rfl (by decide) rfl rfl rfl).1
      ⟨200, .ok ⟨some shopEntries, none, some 25⟩⟩ ⟨some shopEntries, none, some 25⟩ shopEntries
      rfl (by decide) rfl rfl,
   by decide, by decide, by decide, by decide, by decide,
   (list_totals demoEnv netCategoryDown demoQuery ⟨200, .ok demoPage⟩ demoPage
      (shoeEntry "p1" (some 25) (some (.many [⟨⟨"a1"⟩⟩, ⟨⟨"zz"⟩⟩])))
      [shoeEntry "p2" (some 0) (some (.single ⟨⟨"a2"⟩⟩)), shoeEntry "p3" none none] 3
      rfl (by decide) rfl rfl rfl).2.1 ⟨500, .error "Unexpected token"⟩ rfl (by decide)⟩

/-- Claim C10 as stated fails: the page query succeeds with three entries and
reports the total 3, the category `fetch` is rejected, and the listing has no
product and `totalProducts = 0`. -/
theorem list_totals_category_throw_counterexample :
    netCategoryThrows.entries (url demoEnv demoQuery) = .ok ⟨200, .ok demoPage⟩ ∧
    demoPage.total = some 3 ∧
    (demoPage.items.getD []).length = 3 ∧
    netCategoryThrows.entries (allProductsUrl demoEnv) = .error "network down" ∧
    (getServerSideProps demoEnv netCategoryThrows demoQuery).totalProducts = 0 ∧
    (getServerSideProps demoEnv netCategoryThrows demoQuery).products.length = 0 := by
  refine ⟨rfl, rfl, by decide, rfl, by decide, by decide⟩

/-- Claim C11, as amended: a view of a detail page only appends to the
product cache: the cache after the view is the cache before it followed by at
most one product, so every product of the cache is still in it; when the id of
the viewed product is already in the cache the cache is unchanged, and a cache
with distinct ids keeps distinct ids.  A view of a listing page whose
`products` prop is present replaces the cache by the products of that page. -/
theorem cache_updates (cache : List Product) (product : Option Product)
    (products : Option (List Product)) :
    (∀ p ∈ cache, p ∈ viewDetail product cache) ∧
    (∃ added : List Product, viewDetail product cache = cache ++ added ∧ added.length ≤ 1) ∧
    (∀ p : Product, product = some p → (∃ q ∈ cache, q.id = p.id) →
      viewDetail product cache = cache) ∧
    ((cache.map fun p => p.id).Nodup → ((viewDetail product cache).map fun p => p.id).Nodup) ∧
    (∀ ps : List Product, products = some ps → viewListing products cache = ps) ∧
    (products = none → viewListing products cache = cache) := by
  have hadd : ∃ added : List Product, viewDetail product cache = cache ++ added ∧
      added.length ≤ 1 ∧ ((cache.map fun p => p.id).Nodup →
        ((cache ++ added).map fun p => p.id).Nodup) := by
    cases product with
    | none => exact ⟨[], by simp [viewDetail], by simp, by simp⟩
    | some p =>
      by_cases h : ∃ q ∈ cache, q.id = p.id
      · exact ⟨[], by simp [viewDetail_of_mem h], by simp, by simp⟩
      · have h2 : ∀ q ∈ cache, q.id ≠ p.id := fun q hq hid => h ⟨q, hq, hid⟩
        refine ⟨[p], viewDetail_of_not_mem h2, by simp, ?_⟩
        intro hnd
        rw [List.map_append, List.map_singleton]
        refine List.Nodup.append hnd (List.nodup_singleton _) ?_
        simp only [List.disjoint_singleton, List.mem_map, not_exists, not_and]
        exact fun q hq => h2 q hq
  obtain ⟨added, heq, hlen, hnd⟩ := hadd
  refine ⟨?_, ⟨added, heq, hlen⟩, ?_, ?_, ?_, ?_⟩
  · intro p hp
    rw [heq]
    exact List.mem_append_left _ hp
  · intro p hp h
    rw [hp]
    exact viewDetail_of_mem h
  · intro h
    rw [heq]
    exact hnd h
  · intro ps hps
    rw [hps]; rfl
  · intro hps
    rw [hps]; rfl

/-- Witness for claim C11: with `p1` in the cache, viewing the detail page of
`p2` keeps `p1`, viewing the detail page of `p1` changes nothing, and viewing a
listing page that shows `p2` leaves exactly `p2`. -/
theorem cache_updates_witness :
    productP1 ∈ viewDetail (some productP2) [productP1] ∧
    viewDetail (some productP1) [productP1] = [productP1] ∧
    ((viewDetail (some productP2) [productP1]).map fun p => p.id).Nodup ∧
    viewListing (some [productP2]) [productP1] = [productP2] :=
  ⟨(cache_updates [productP1] (some productP2) none).1 productP1 (by decide),
   (cache_updates [productP1] (some productP1) none).2.2.1 productP1 rfl
      ⟨productP1, by decide, rfl⟩,
   (cache_updates [productP1] (some productP2) none).2.2.2.1 (by decide),
   (cache_updates [productP1] none (some [productP2])).2.2.2.2.1 [productP2] rfl⟩

/-- Claim C11 as stated fails for the view of a listing page: the cache holds
`p1`, the listing page shows `p2`, and `p1` is no longer in the cache. -/
theorem cache_listing_counterexample :
    productP1 ∈ [productP1] ∧
    productP1 ∉ viewListing (some [productP2]) [productP1] := by
  refine ⟨by decide, by decide⟩

/-- Claim C12: for every value offered by the category filter (the sentinel
`all` or a non-empty category, the option value being the category itself
whatever its label), the query built by `handleCategoryChange` has `page = 1`
and decodes, as `query.category || 'all'`, to exactly that value; it holds a
category parameter if and only if the value is not `all`; and the server adds
the `fields.category` filter to the backend query if and only if the category
parameter is present (non-empty) and not `all`. -/
theorem category_roundtrip (toUpperCase : String → String) (categories : List String)
    (options : List SelectOption) (c : String)
    (hcats : ∀ x ∈ categories, x ≠ "")
    (hopt : ProductFilter toUpperCase (some categories) = some options)
    (hc : c ∈ options.map fun o => o.value) :
    (options.map fun o => o.value) = "all" :: categories ∧
    (handleCategoryChange c).query.page = 1 ∧
    strOr (handleCategoryChange c).query.category "all" = c ∧
    selectedCategoryOf (routerQuery (handleCategoryChange c)) = c ∧
    pageOf (routerQuery (handleCategoryChange c)) = some 1 ∧
    ((handleCategoryChange c).query.category ≠ none ↔ c ≠ "all") ∧
    ((handleCategoryChange c).query.category = some c ∨ c = "all") ∧
    (∀ env : Env, url env (routerQuery (handleCategoryChange c)) ≠
        baseUrl env (routerQuery (handleCategoryChange c)) ↔ c ≠ "all") ∧
    (∀ (env : Env) (query : Query), url env query ≠ baseUrl env query ↔
      ∃ cat, query.category = some cat ∧ cat ≠ "" ∧ cat ≠ "all") ∧
    (∀ (env : Env) (query : Query) (cat : String), query.category = some cat → cat ≠ "" →
      cat ≠ "all" →
      url env query = baseUrl env query ++ "&fields.category=" ++ encodeURIComponent cat) := by
  have hvals : (options.map fun o => o.value) = "all" :: categories := by
    cases categories with
    | nil => simp [ProductFilter] at hopt
    | cons cat cats =>
      simp only [ProductFilter, Option.some.injEq] at hopt
      subst hopt
      simp [Function.comp_def]
  have hne : c ≠ "" := by
    rw [hvals] at hc
    rcases List.mem_cons.1 hc with h | h
    · rw [h]; decide
    · exact hcats c h
  have hdec : strOr (handleCategoryChange c).query.category "all" = c := by
    by_cases hall : c = "all"
    · subst hall; decide
    · simp [handleCategoryChange, strOr, truthyStr, hall, hne]
  refine ⟨hvals, rfl, hdec, hdec, rfl, ?_, ?_, ?_, url_ne_baseUrl_iff,
    fun env query cat h1 h2 h3 => url_of_filter h1 h2 h3⟩
  · by_cases hall : c = "all" <;> simp [handleCategoryChange, hall]
  · by_cases hall : c = "all" <;> simp [handleCategoryChange, hall]
  · intro env
    rw [url_ne_baseUrl_iff]
    by_cases hall : c = "all"
    · simp [routerQuery, handleCategoryChange, hall]
    · simp [routerQuery, handleCategoryChange, hall, hne]

/-- Witness for claim C12: the category `Shoes` of a filter offering `Shoes`
and `bags` comes back as `Shoes`, with the filter added to the backend
query. -/
theorem category_roundtrip_witness :
    selectedCategoryOf (routerQuery (handleCategoryChange "Shoes")) = "Shoes" ∧
    (handleCategoryChange "Shoes").query.category = some "Shoes" ∧
    url demoEnv (routerQuery (handleCategoryChange "Shoes")) ≠
      baseUrl demoEnv (routerQuery (handleCategoryChange "Shoes")) :=
  have h := category_roundtrip asciiUpper ["Shoes", "bags"]
    [⟨"all", "All Categories"⟩, ⟨"Shoes", "Shoes"⟩, ⟨"bags", "Bags"⟩] "Shoes"
    (by decide) (by decide) (by decide)
  ⟨h.2.2.2.1, (h.2.2.2.2.2.2.1).resolve_right (by decide),
   (h.2.2.2.2.2.2.2.1 demoEnv).2 (by decide)⟩

end Storeplatform
